import Mathlib

/-!
Verification of `calculate_rolling_returns_df` from `src/lib/rollingwins/src/lib.rs`.

The Rust function reads one named `f64` column `prices` from a polars `DataFrame`,
checks `prices.len() < k`, then for every `i` in `0..=(prices.len() - k)` computes
`(prices.get(i + k - 1).unwrap() - prices.get(i).unwrap()) / prices.get(i).unwrap()`
and returns a new one-column `DataFrame` named `"{column}_return_{k}_day"`.

Embedding choices:
* `f64` values are modelled by class (finite nonzero / signed zero / signed
  infinity / NaN).  Operations whose IEEE-754 result is exact (an operand is
  zero, infinite or NaN) are modelled directly; the rounding of an exact
  rational result of a finite∘finite operation is abstracted as a parameter
  `rnd : ℚ → F64` (round-to-nearest-even with overflow and underflow is one
  such function).  Every theorem below holds for every choice of `rnd`.
* A polars `Float64Chunked` is a sequence of optional values (`none` = null);
  `ChunkedArray::get` returns `none` both out of bounds and on a null entry.
* Reported Python errors (`PyResult::Err`) and Rust panics
  (`Option::unwrap` on `None`, `usize` subtraction overflow) are distinguished
  in the `Outcome` type.  For `i + k - 1` we model the debug-build panic on
  underflow; in release builds the subtraction wraps to `usize::MAX`, where
  `get` returns `None` and `unwrap` panics, so either way the call panics
  rather than returning an error.
-/

namespace RollingWins

/-- Model of an IEEE-754 binary64 value by class: `finite q` is a finite
nonzero double of exact value `q`, `zero s` is `±0.0` (`s = true` for the
negative sign), `inf s` is `±∞`, `nan` is any NaN. -/
inductive F64 : Type
  | finite (q : ℚ)
  | zero (sign : Bool)
  | inf (sign : Bool)
  | nan
  deriving DecidableEq

namespace F64

/-- Sign bit of a value (`true` = negative); NaN's sign is irrelevant. -/
def sign : F64 → Bool
  | finite q => decide (q < 0)
  | zero s => s
  | inf s => s
  | nan => false

/-- Is the value `±∞` or NaN? -/
def isInfOrNan : F64 → Bool
  | inf _ => true
  | nan => true
  | _ => false

end F64

/-- IEEE-754 subtraction `x - y` on the class model.  All cases with a zero,
infinite or NaN operand, and the exact-cancellation case, are exact and
modelled directly (round-to-nearest gives `+0` for an exact zero result);
the remaining finite case defers to the rounding function `rnd`. -/
def fsub (rnd : ℚ → F64) : F64 → F64 → F64
  | F64.nan, _ => F64.nan
  | _, F64.nan => F64.nan
  | F64.inf s1, F64.inf s2 => if s1 = s2 then F64.nan else F64.inf s1
  | F64.inf s, F64.finite _ => F64.inf s
  | F64.inf s, F64.zero _ => F64.inf s
  | F64.finite _, F64.inf s => F64.inf (!s)
  | F64.zero _, F64.inf s => F64.inf (!s)
  | F64.zero s1, F64.zero s2 => if s1 = s2 then F64.zero false else F64.zero s1
  | F64.finite q, F64.zero _ => F64.finite q
  | F64.zero _, F64.finite q => F64.finite (-q)
  | F64.finite q1, F64.finite q2 =>
      if q1 = q2 then F64.zero false else rnd (q1 - q2)

/-- IEEE-754 division `x / y` on the class model.  The result sign is the
XOR of the operand signs; `∞/∞` and `0/0` are NaN, division of a nonzero
value by `±0` is `±∞`, division by `±∞` of a finite value is `±0`; the
finite/finite case defers to the rounding function `rnd`. -/
def fdiv (rnd : ℚ → F64) : F64 → F64 → F64
  | F64.nan, _ => F64.nan
  | _, F64.nan => F64.nan
  | F64.inf _, F64.inf _ => F64.nan
  | F64.inf s1, F64.zero s2 => F64.inf (xor s1 s2)
  | F64.inf s1, F64.finite q => F64.inf (xor s1 (decide (q < 0)))
  | F64.zero _, F64.zero _ => F64.nan
  | F64.zero s1, F64.inf s2 => F64.zero (xor s1 s2)
  | F64.zero s1, F64.finite q => F64.zero (xor s1 (decide (q < 0)))
  | F64.finite q, F64.inf s => F64.zero (xor (decide (q < 0)) s)
  | F64.finite q, F64.zero s => F64.inf (xor (decide (q < 0)) s)
  | F64.finite q1, F64.finite q2 => rnd (q1 / q2)

/-- A concrete stand-in rounding function used to instantiate witnesses: it
keeps the exact rational (every rational value arising in the concrete
witnesses below is exactly representable in binary64, so on those inputs it
agrees with round-to-nearest-even). -/
def rnd0 (q : ℚ) : F64 :=
  if q = 0 then F64.zero false else F64.finite q

/-- Backing data of a polars `Series`: either a `Float64` column (a sequence
of optional values, `none` = null) or a column of some other dtype, of which
only the dtype name and the length are observable to this function. -/
inductive SeriesData : Type
  | f64 (vals : List (Option F64))
  | other (dtype : String) (len : ℕ)
  deriving DecidableEq

/-- A named polars `Series`. -/
structure Series : Type where
  name : String
  data : SeriesData
  deriving DecidableEq

/-- A polars `DataFrame`: an ordered collection of named series. -/
structure DataFrame : Type where
  columns : List Series
  deriving DecidableEq

/-- `DataFrame::column(name)`: look up a series by name (polars keeps column
names unique; lookup returns the first match). -/
def DataFrame.column (df : DataFrame) (name : String) : Option Series :=
  df.columns.find? (fun s => s.name = name)

/-- `ChunkedArray::get(i)` on a `Float64Chunked`: `none` when `i` is out of
bounds or the entry is null. -/
def chGet (prices : List (Option F64)) (i : ℕ) : Option F64 :=
  (prices.get? i).join

/-- Python exception class raised through pyo3. -/
inductive PyErrKind : Type
  | valueError
  | runtimeError
  deriving DecidableEq

/-- A raised Python error: exception class plus rendered message. -/
structure PyErr : Type where
  kind : PyErrKind
  message : String
  deriving DecidableEq

/-- Result of a call into the extension function: a returned value, a
reported Python error, or a Rust panic. -/
inductive Outcome (α : Type) : Type
  | ok (a : α)
  | err (e : PyErr)
  | panic (msg : String)
  deriving DecidableEq

/-- Message of the Rust panic `called Option::unwrap() on a None value`. -/
def unwrapNoneMsg : String := "called Option::unwrap() on a None value"

/-- Message of the Rust debug-build panic on `usize` subtraction overflow. -/
def usizeUnderflowMsg : String := "attempt to subtract with overflow"

/-- Modelled display text of the polars `ColumnNotFound` error produced by
`DataFrame::column`; polars renders the missing name in quotes. -/
def polarsColumnNotFoundCause (name : String) : String :=
  "\"" ++ name ++ "\" not found"

/-- Modelled display text of the polars `SchemaMismatch` error produced by
`Series::f64` on a column of another dtype.  Polars renders the expected and
actual dtypes; its text does not include the series name. -/
def polarsDtypeMismatchCause (dtype : String) : String :=
  "invalid series dtype: expected `Float64`, got `" ++ dtype ++ "`"

/-- Message built at `src/lib/rollingwins/src/lib.rs:19-22`:
`format!("Column '{}' not found: {}", column, e)`. -/
def columnNotFoundMsg (column cause : String) : String :=
  "Column '" ++ column ++ "' not found: " ++ cause

/-- Message built at `src/lib/rollingwins/src/lib.rs:26-29`:
`format!("Column must be numeric: {}", e)`. -/
def typeMismatchMsg (cause : String) : String :=
  "Column must be numeric: " ++ cause

/-- Message built at `src/lib/rollingwins/src/lib.rs:33-37`:
`format!("Not enough data points. Need at least {} prices, got {}", k, prices.len())`. -/
def insufficientDataMsg (k len : ℕ) : String :=
  "Not enough data points. Need at least " ++ toString k ++ " prices, got " ++ toString len

/-- Output column name built at `src/lib/rollingwins/src/lib.rs:51`:
`format!("{}_return_{}_day", column, k)`. -/
def seriesName (column : String) (k : ℕ) : String :=
  column ++ "_return_" ++ toString k ++ "_day"

/-- One iteration of the loop at `src/lib/rollingwins/src/lib.rs:43-49`:
unwrap `prices.get(i)` (panicking on `None`), compute the end index
`i + k - 1` (panicking on `usize` underflow when `i + k = 0`), unwrap
`prices.get(i + k - 1)`, and form `(end_price - start_price) / start_price`.
`Except.error` carries the panic message. -/
def windowReturn (rnd : ℚ → F64) (prices : List (Option F64)) (k i : ℕ) :
    Except String F64 :=
  match chGet prices i with
  | none => Except.error unwrapNoneMsg
  | some start_price =>
    if i + k = 0 then Except.error usizeUnderflowMsg
    else
      match chGet prices (i + k - 1) with
      | none => Except.error unwrapNoneMsg
      | some end_price => Except.ok (fdiv rnd (fsub rnd end_price start_price) start_price)

/-- The `for` loop of `src/lib/rollingwins/src/lib.rs:43-49` run over a list
of start indices: results are pushed in order, and the first panic aborts
the call. -/
def rollingLoop (rnd : ℚ → F64) (prices : List (Option F64)) (k : ℕ) :
    List ℕ → Except String (List F64)
  | [] => Except.ok []
  | i :: rest =>
    match windowReturn rnd prices k i with
    | Except.error m => Except.error m
    | Except.ok v =>
      match rollingLoop rnd prices k rest with
      | Except.error m => Except.error m
      | Except.ok vs => Except.ok (v :: vs)

/-- The whole loop: start indices `0..=(prices.len() - k)` (the `len < k`
case was rejected before the loop, so the bound does not underflow). -/
def rollingReturns (rnd : ℚ → F64) (prices : List (Option F64)) (k : ℕ) :
    Except String (List F64) :=
  rollingLoop rnd prices k (List.range (prices.length - k + 1))

/-- Shallow embedding of `calculate_rolling_returns_df`
(`src/lib/rollingwins/src/lib.rs:9-56`).  The final
`DataFrame::new(vec![Series::new(..)])` is modelled as always succeeding: a
one-column frame built from a fresh vector cannot hit polars' duplicate-name
or length-mismatch failures, so the `PyRuntimeError` branch is unreachable;
`Series::new` on a `&Vec<f64>` yields a column with no nulls. -/
def calculate_rolling_returns_df (rnd : ℚ → F64) (df : DataFrame)
    (column : String) (k : ℕ) : Outcome DataFrame :=
  match DataFrame.column df column with
  | none =>
      Outcome.err ⟨PyErrKind.valueError, columnNotFoundMsg column (polarsColumnNotFoundCause column)⟩
  | some s =>
    match s.data with
    | SeriesData.other dt _ =>
        Outcome.err ⟨PyErrKind.valueError, typeMismatchMsg (polarsDtypeMismatchCause dt)⟩
    | SeriesData.f64 prices =>
      if prices.length < k then
        Outcome.err ⟨PyErrKind.valueError, insufficientDataMsg k prices.length⟩
      else
        match rollingReturns rnd prices k with
        | Except.error m => Outcome.panic m
        | Except.ok returns =>
            Outcome.ok ⟨[⟨seriesName column k, SeriesData.f64 (returns.map some)⟩]⟩

/-- The value the loop body computes for the window starting at `i`, read
off a null-free column `vals`. -/
def retAt (rnd : ℚ → F64) (vals : List F64) (k i : ℕ) : F64 :=
  fdiv rnd (fsub rnd (vals.getD (i + k - 1) F64.nan) (vals.getD i F64.nan)) (vals.getD i F64.nan)

set_option maxRecDepth 8000

/-- On a null-free column, `ChunkedArray::get` at an in-bounds index yields
the stored value. -/
theorem chGet_map_some (vals : List F64) (i : ℕ) (h : i < vals.length) :
    chGet (vals.map some) i = some (vals.getD i F64.nan) := by
  simp [chGet, List.get?_eq_getElem?, List.getElem?_map, List.getD_eq_getElem?_getD,
    List.getElem?_eq_getElem h]

/-- On a null-free column with `1 ≤ k` and the whole window in bounds, one
loop iteration succeeds and produces the return formula. -/
theorem windowReturn_map_some (rnd : ℚ → F64) (vals : List F64) (k i : ℕ)
    (hk : 1 ≤ k) (hi : i + k ≤ vals.length) :
    windowReturn rnd (vals.map some) k i = Except.ok (retAt rnd vals k i) := by
  have h1 : i < vals.length := by omega
  have h2 : i + k - 1 < vals.length := by omega
  have hk0 : i + k ≠ 0 := by omega
  simp [windowReturn, chGet_map_some vals i h1, chGet_map_some vals (i + k - 1) h2, hk0, retAt]

/-- If every iteration succeeds with value `f i`, the loop returns the
values in index order. -/
theorem rollingLoop_ok_of_forall (rnd : ℚ → F64) (prices : List (Option F64)) (k : ℕ)
    (f : ℕ → F64) :
    ∀ is : List ℕ, (∀ i ∈ is, windowReturn rnd prices k i = Except.ok (f i)) →
      rollingLoop rnd prices k is = Except.ok (is.map f)
  | [], _ => rfl
  | i :: rest, h => by
    have hi := h i (by simp)
    have hrest := rollingLoop_ok_of_forall rnd prices k f rest (fun j hj => h j (by simp [hj]))
    simp [rollingLoop, hi, hrest]

/-- If the loop returns successfully, every iteration it ran succeeded. -/
theorem rollingLoop_ok_mem (rnd : ℚ → F64) (prices : List (Option F64)) (k : ℕ) :
    ∀ (is : List ℕ) (res : List F64), rollingLoop rnd prices k is = Except.ok res →
      ∀ i ∈ is, ∃ v, windowReturn rnd prices k i = Except.ok v
  | [], _, _, i, hi => by simp at hi
  | j :: rest, res, h, i, hi => by
    rw [rollingLoop] at h
    cases hw : windowReturn rnd prices k j with
    | error m => rw [hw] at h; cases h
    | ok v =>
      rw [hw] at h
      cases hr : rollingLoop rnd prices k rest with
      | error m => rw [hr] at h; cases h
      | ok vs =>
        rcases List.mem_cons.1 hi with hij | hmem
        · exact ⟨v, hij ▸ hw⟩
        · exact rollingLoop_ok_mem rnd prices k rest vs hr i hmem

/-- Successful run of the whole function on a null-free `Float64` column
with `1 ≤ k ≤ len`: the output is one column holding
`retAt` for every start index `0, 1, …, len - k` in order. -/
theorem calc_ok_of_valid (rnd : ℚ → F64) (df : DataFrame) (column : String) (k : ℕ)
    (s : Series) (vals : List F64)
    (hcol : DataFrame.column df column = some s)
    (hdata : s.data = SeriesData.f64 (vals.map some))
    (hk1 : 1 ≤ k) (hk2 : k ≤ vals.length) :
    calculate_rolling_returns_df rnd df column k =
      Outcome.ok ⟨[⟨seriesName column k,
        SeriesData.f64 (((List.range (vals.length - k + 1)).map (retAt rnd vals k)).map some)⟩]⟩ := by
  have hlen : ¬ ((vals.map some).length < k) := by rw [List.length_map]; omega
  have hloop : rollingReturns rnd (vals.map some) k =
      Except.ok ((List.range (vals.length - k + 1)).map (retAt rnd vals k)) := by
    unfold rollingReturns
    rw [List.length_map]
    exact rollingLoop_ok_of_forall rnd (vals.map some) k (retAt rnd vals k) _
      (fun i hi => windowReturn_map_some rnd vals k i hk1
        (by rw [List.mem_range] at hi; omega))
  simp only [calculate_rolling_returns_df, hcol, hdata]
  rw [if_neg hlen, hloop]

/-- Dividing by an IEEE zero after subtracting that zero always yields an
infinity or a NaN, for every end value and every rounding function. -/
theorem fdiv_fsub_zero_isInfOrNan (rnd : ℚ → F64) (e : F64) (sgn : Bool) :
    (fdiv rnd (fsub rnd e (F64.zero sgn)) (F64.zero sgn)).isInfOrNan = true := by
  cases e with
  | nan => rfl
  | inf s => rfl
  | finite q => rfl
  | zero s =>
    show (fdiv rnd (if s = sgn then F64.zero false else F64.zero s) (F64.zero sgn)).isInfOrNan
      = true
    by_cases h : s = sgn <;> simp [h, fdiv, F64.isInfOrNan]

/-- Concrete three-row price column used by witnesses: the worked example
`[100, 110, 121]` of the spec. -/
def pricesEx : List F64 := [F64.finite 100, F64.finite 110, F64.finite 121]

/-- Concrete one-column input table used by witnesses. -/
def dfEx : DataFrame := ⟨[⟨"price", SeriesData.f64 (pricesEx.map some)⟩]⟩

/-- C1: for every table whose named column exists, is floating-point
(null-free `Float64`) and has `1 ≤ k ≤ len` rows, the call returns a column
whose row `i` (for every `0 ≤ i ≤ len - k`) holds
`(column[i+k-1] - column[i]) / column[i]`, in increasing order of `i`. -/
theorem rolling_return_values (rnd : ℚ → F64) (df : DataFrame) (column : String)
    (k : ℕ) (s : Series) (vals : List F64)
    (hcol : DataFrame.column df column = some s)
    (hdata : s.data = SeriesData.f64 (vals.map some))
    (hk1 : 1 ≤ k) (hk2 : k ≤ vals.length) :
    calculate_rolling_returns_df rnd df column k =
      Outcome.ok ⟨[⟨seriesName column k,
        SeriesData.f64 (((List.range (vals.length - k + 1)).map (retAt rnd vals k)).map some)⟩]⟩ ∧
    ∀ i, i ≤ vals.length - k →
      ((List.range (vals.length - k + 1)).map (retAt rnd vals k)).get? i =
        some (fdiv rnd (fsub rnd (vals.getD (i + k - 1) F64.nan) (vals.getD i F64.nan))
          (vals.getD i F64.nan)) := by
  refine ⟨calc_ok_of_valid rnd df column k s vals hcol hdata hk1 hk2, fun i hi => ?_⟩
  rw [List.get?_eq_getElem?, List.getElem?_map, List.getElem?_range (by omega)]
  rfl

/-- Witness for C1 at the spec's worked example (`[100, 110, 121]`, `k = 2`). -/
theorem rolling_return_values_witness :
    calculate_rolling_returns_df rnd0 dfEx "price" 2 =
      Outcome.ok ⟨[⟨seriesName "price" 2,
        SeriesData.f64 (((List.range (pricesEx.length - 2 + 1)).map (retAt rnd0 pricesEx 2)).map some)⟩]⟩ ∧
    ∀ i, i ≤ pricesEx.length - 2 →
      ((List.range (pricesEx.length - 2 + 1)).map (retAt rnd0 pricesEx 2)).get? i =
        some (fdiv rnd0 (fsub rnd0 (pricesEx.getD (i + 2 - 1) F64.nan) (pricesEx.getD i F64.nan))
          (pricesEx.getD i F64.nan)) :=
  rolling_return_values rnd0 dfEx "price" 2 ⟨"price", SeriesData.f64 (pricesEx.map some)⟩
    pricesEx rfl rfl (by decide) (by decide)

/-- C2: for every valid input (column exists, null-free `Float64`,
`1 ≤ k ≤ len`), the output column has exactly `len - k + 1` rows, and in
particular exactly one row when `k = len`. -/
theorem output_row_count (rnd : ℚ → F64) (df : DataFrame) (column : String)
    (k : ℕ) (s : Series) (vals : List F64)
    (hcol : DataFrame.column df column = some s)
    (hdata : s.data = SeriesData.f64 (vals.map some))
    (hk1 : 1 ≤ k) (hk2 : k ≤ vals.length) :
    ∃ data : List (Option F64),
      calculate_rolling_returns_df rnd df column k =
        Outcome.ok ⟨[⟨seriesName column k, SeriesData.f64 data⟩]⟩ ∧
      data.length = vals.length - k + 1 ∧
      (k = vals.length → data.length = 1) := by
  refine ⟨_, calc_ok_of_valid rnd df column k s vals hcol hdata hk1 hk2, ?_, ?_⟩
  · simp
  · intro h
    simp [h]

/-- Witness for C2 at the boundary case `k = len = 3`. -/
theorem output_row_count_witness :
    ∃ data : List (Option F64),
      calculate_rolling_returns_df rnd0 dfEx "price" 3 =
        Outcome.ok ⟨[⟨seriesName "price" 3, SeriesData.f64 data⟩]⟩ ∧
      data.length = pricesEx.length - 3 + 1 ∧
      (3 = pricesEx.length → data.length = 1) :=
  output_row_count rnd0 dfEx "price" 3 ⟨"price", SeriesData.f64 (pricesEx.map some)⟩
    pricesEx rfl rfl (by decide) (by decide)

/-- C5: on a valid input whose window start `column[i]` is an IEEE zero,
the call still succeeds, and output row `i` is exactly the unguarded
quotient `(column[i+k-1] - column[i]) / column[i]`, which is an infinity
or a NaN under IEEE-754 semantics. -/
theorem zero_start_inf_or_nan (rnd : ℚ → F64) (df : DataFrame) (column : String)
    (k : ℕ) (s : Series) (vals : List F64)
    (hcol : DataFrame.column df column = some s)
    (hdata : s.data = SeriesData.f64 (vals.map some))
    (hk1 : 1 ≤ k) (hk2 : k ≤ vals.length)
    (i : ℕ) (hik : i + k ≤ vals.length) (sgn : Bool)
    (hzero : vals.getD i F64.nan = F64.zero sgn) :
    calculate_rolling_returns_df rnd df column k =
      Outcome.ok ⟨[⟨seriesName column k,
        SeriesData.f64 (((List.range (vals.length - k + 1)).map (retAt rnd vals k)).map some)⟩]⟩ ∧
    ((List.range (vals.length - k + 1)).map (retAt rnd vals k)).get? i =
      some (fdiv rnd (fsub rnd (vals.getD (i + k - 1) F64.nan) (F64.zero sgn)) (F64.zero sgn)) ∧
    (fdiv rnd (fsub rnd (vals.getD (i + k - 1) F64.nan) (F64.zero sgn)) (F64.zero sgn)).isInfOrNan
      = true := by
  refine ⟨calc_ok_of_valid rnd df column k s vals hcol hdata hk1 hk2, ?_,
    fdiv_fsub_zero_isInfOrNan rnd (vals.getD (i + k - 1) F64.nan) sgn⟩
  have hret : retAt rnd vals k i =
      fdiv rnd (fsub rnd (vals.getD (i + k - 1) F64.nan) (F64.zero sgn)) (F64.zero sgn) := by
    unfold retAt
    rw [hzero]
  rw [List.get?_eq_getElem?, List.getElem?_map, List.getElem?_range (by omega),
    Option.map_some', hret]

/-- Price column with a zero start used by the C5 witness. -/
def pricesZero : List F64 := [F64.zero false, F64.finite 110]

/-- Input table with a zero-valued start price used by the C5 witness. -/
def dfZero : DataFrame := ⟨[⟨"price", SeriesData.f64 (pricesZero.map some)⟩]⟩

/-- Witness for C5: column `[0.0, 110.0]`, `k = 2`, window starting at 0. -/
theorem zero_start_inf_or_nan_witness :
    calculate_rolling_returns_df rnd0 dfZero "price" 2 =
      Outcome.ok ⟨[⟨seriesName "price" 2,
        SeriesData.f64 (((List.range (pricesZero.length - 2 + 1)).map (retAt rnd0 pricesZero 2)).map some)⟩]⟩ ∧
    ((List.range (pricesZero.length - 2 + 1)).map (retAt rnd0 pricesZero 2)).get? 0 =
      some (fdiv rnd0 (fsub rnd0 (pricesZero.getD (0 + 2 - 1) F64.nan) (F64.zero false))
        (F64.zero false)) ∧
    (fdiv rnd0 (fsub rnd0 (pricesZero.getD (0 + 2 - 1) F64.nan) (F64.zero false))
      (F64.zero false)).isInfOrNan = true :=
  zero_start_inf_or_nan rnd0 dfZero "price" 2 ⟨"price", SeriesData.f64 (pricesZero.map some)⟩
    pricesZero rfl rfl (by decide) (by decide) 0 (by decide) false rfl

/-- C4: every successful call returns a table holding exactly one column,
named by concatenating the input column name, `_return_`, the day count
and `_day`; all other input columns are absent from the output. -/
theorem output_single_named_column (rnd : ℚ → F64) (df : DataFrame) (column : String)
    (k : ℕ) (out : DataFrame)
    (h : calculate_rolling_returns_df rnd df column k = Outcome.ok out) :
    ∃ data : List (Option F64),
      out.columns = [⟨column ++ "_return_" ++ toString k ++ "_day", SeriesData.f64 data⟩] := by
  unfold calculate_rolling_returns_df at h
  split at h
  · simp at h
  · split at h
    · simp at h
    · split at h
      · simp at h
      · split at h
        · simp at h
        · rename_i returns _
          cases h
          exact ⟨returns.map some, rfl⟩

/-- Witness for C4 at `[100, 110, 121]`, `k = 2`: the output table holds the
single column `price_return_2_day`. -/
theorem output_single_named_column_witness :
    ∃ data : List (Option F64),
      (DataFrame.mk [⟨seriesName "price" 2,
        SeriesData.f64 (((List.range (pricesEx.length - 2 + 1)).map (retAt rnd0 pricesEx 2)).map some)⟩]).columns
        = [⟨"price" ++ "_return_" ++ toString 2 ++ "_day", SeriesData.f64 data⟩] :=
  output_single_named_column rnd0 dfEx "price" 2 _
    (calc_ok_of_valid rnd0 dfEx "price" 2 ⟨"price", SeriesData.f64 (pricesEx.map some)⟩
      pricesEx rfl rfl (by decide) (by decide))

/-- C6: when the requested column is absent, the call fails with the
column-not-found `ValueError`, whose message contains the requested name. -/
theorem column_not_found_error (rnd : ℚ → F64) (df : DataFrame) (column : String) (k : ℕ)
    (h : DataFrame.column df column = none) :
    calculate_rolling_returns_df rnd df column k =
      Outcome.err ⟨PyErrKind.valueError,
        columnNotFoundMsg column (polarsColumnNotFoundCause column)⟩ ∧
    column.data <:+: (columnNotFoundMsg column (polarsColumnNotFoundCause column)).data := by
  constructor
  · simp only [calculate_rolling_returns_df, h]
  · simp only [columnNotFoundMsg, String.data_append]
    simp only [show ("Column '" : String).data = ['C', 'o', 'l', 'u', 'm', 'n', ' ', '\''] from rfl,
      List.cons_append, List.nil_append]
    repeat apply List.infix_cons
    rw [List.append_assoc]
    exact ⟨[], _, rfl⟩

/-- Witness for C6: the empty table has no column `price`. -/
theorem column_not_found_error_witness :
    calculate_rolling_returns_df rnd0 ⟨[]⟩ "price" 2 =
      Outcome.err ⟨PyErrKind.valueError,
        columnNotFoundMsg "price" (polarsColumnNotFoundCause "price")⟩ ∧
    "price".data <:+: (columnNotFoundMsg "price" (polarsColumnNotFoundCause "price")).data :=
  column_not_found_error rnd0 ⟨[]⟩ "price" 2 rfl

/-- C10: the function is deterministic: two calls on identical inputs
return identical outcomes (same error, or output tables equal value for
value and in name).  The source reads only its arguments and no global
state, so it embeds as a pure function and determinism is a congruence. -/
theorem deterministic_calls (rnd : ℚ → F64) (df1 df2 : DataFrame) (c1 c2 : String)
    (k1 k2 : ℕ) (hdf : df1 = df2) (hc : c1 = c2) (hk : k1 = k2) :
    calculate_rolling_returns_df rnd df1 c1 k1 = calculate_rolling_returns_df rnd df2 c2 k2 := by
  rw [hdf, hc, hk]

/-- Witness for C10 at the concrete example table. -/
theorem deterministic_calls_witness :
    calculate_rolling_returns_df rnd0 dfEx "price" 2 =
      calculate_rolling_returns_df rnd0 dfEx "price" 2 :=
  deterministic_calls rnd0 dfEx dfEx "price" "price" 2 2 rfl rfl rfl

/-- The column-not-found message (first character `C`) is never equal to an
insufficient-data message (first character `N`). -/
theorem colNotFound_ne_insufficient (c cause : String) (k l : ℕ) :
    columnNotFoundMsg c cause ≠ insufficientDataMsg k l := by
  intro h
  have h2 : (some 'C' : Option Char) = some 'N' := congrArg (fun s => s.data.head?) h
  simp at h2

/-- The type-mismatch message (first character `C`) is never equal to an
insufficient-data message (first character `N`). -/
theorem typeMismatch_ne_insufficient (cause : String) (k l : ℕ) :
    typeMismatchMsg cause ≠ insufficientDataMsg k l := by
  intro h
  have h2 : (some 'C' : Option Char) = some 'N' := congrArg (fun s => s.data.head?) h
  simp at h2

/-- C3: the call fails with an insufficient-data error if and only if the
named column exists, is `Float64`, and its row count is strictly less than
`k`; the message then reports both `k` and the actual row count. -/
theorem insufficient_data_iff (rnd : ℚ → F64) (df : DataFrame) (column : String) (k : ℕ) :
    ((∃ len, calculate_rolling_returns_df rnd df column k =
        Outcome.err ⟨PyErrKind.valueError, insufficientDataMsg k len⟩) ↔
      ∃ s vals, DataFrame.column df column = some s ∧ s.data = SeriesData.f64 vals ∧
        vals.length < k) ∧
    ∀ s vals, DataFrame.column df column = some s → s.data = SeriesData.f64 vals →
      vals.length < k →
      calculate_rolling_returns_df rnd df column k =
        Outcome.err ⟨PyErrKind.valueError, insufficientDataMsg k vals.length⟩ := by
  have hbranch : ∀ s vals, DataFrame.column df column = some s →
      s.data = SeriesData.f64 vals → vals.length < k →
      calculate_rolling_returns_df rnd df column k =
        Outcome.err ⟨PyErrKind.valueError, insufficientDataMsg k vals.length⟩ := by
    intro s vals h1 h2 h3
    simp only [calculate_rolling_returns_df, h1, h2]
    rw [if_pos h3]
  refine ⟨⟨?_, ?_⟩, hbranch⟩
  · rintro ⟨len, hlen⟩
    cases hdf : DataFrame.column df column with
    | none =>
      simp only [calculate_rolling_returns_df, hdf, Outcome.err.injEq, PyErr.mk.injEq,
        true_and] at hlen
      exact absurd hlen (colNotFound_ne_insufficient column _ k len)
    | some s =>
      cases hsd : s.data with
      | other dt l =>
        simp only [calculate_rolling_returns_df, hdf, hsd, Outcome.err.injEq, PyErr.mk.injEq,
          true_and] at hlen
        exact absurd hlen (typeMismatch_ne_insufficient _ k len)
      | f64 vals =>
        by_cases hlt : vals.length < k
        · exact ⟨s, vals, rfl, hsd, hlt⟩
        · simp only [calculate_rolling_returns_df, hdf, hsd] at hlen
          rw [if_neg hlt] at hlen
          cases hr : rollingReturns rnd vals k with
          | error m => rw [hr] at hlen; cases hlen
          | ok res => rw [hr] at hlen; cases hlen
  · rintro ⟨s, vals, h1, h2, h3⟩
    exact ⟨vals.length, hbranch s vals h1 h2 h3⟩

/-- Single-row input table used by witnesses (spec example `[100]`). -/
def dfOne : DataFrame := ⟨[⟨"price", SeriesData.f64 [some (F64.finite 100)]⟩]⟩

/-- Witness for C3 at the spec's example: column `[100]`, `k = 2` gives the
error reporting `Need at least 2 prices, got 1`. -/
theorem insufficient_data_iff_witness :
    calculate_rolling_returns_df rnd0 dfOne "price" 2 =
      Outcome.err ⟨PyErrKind.valueError, insufficientDataMsg 2 1⟩ :=
  (insufficient_data_iff rnd0 dfOne "price" 2).2
    ⟨"price", SeriesData.f64 [some (F64.finite 100)]⟩ [some (F64.finite 100)] rfl rfl
    (by decide)

/-- Input table whose `price` column has dtype `i64`, used for C7. -/
def dfInt : DataFrame := ⟨[⟨"price", SeriesData.other "i64" 3⟩]⟩

/-- C7 counterexample: for an `i64` column named `price` the raised message
is `Column must be numeric: ` followed by the dtype cause, and the column
name `price` occurs nowhere in it, so the message does not name the
offending column. -/
theorem type_mismatch_counterexample :
    calculate_rolling_returns_df rnd0 dfInt "price" 2 =
      Outcome.err ⟨PyErrKind.valueError, typeMismatchMsg (polarsDtypeMismatchCause "i64")⟩ ∧
    ¬ ("price".data <:+: (typeMismatchMsg (polarsDtypeMismatchCause "i64")).data) :=
  ⟨rfl, by decide⟩

/-- C7 amended: when the named column exists but is not `Float64`, the call
fails with a `ValueError` whose message is `Column must be numeric: `
followed by the underlying dtype-mismatch cause; the message reports the
cause but does not name the offending column. -/
theorem type_mismatch_error (rnd : ℚ → F64) (df : DataFrame) (column : String) (k : ℕ)
    (s : Series) (dt : String) (len : ℕ)
    (hcol : DataFrame.column df column = some s)
    (hdata : s.data = SeriesData.other dt len) :
    calculate_rolling_returns_df rnd df column k =
      Outcome.err ⟨PyErrKind.valueError, typeMismatchMsg (polarsDtypeMismatchCause dt)⟩ := by
  simp only [calculate_rolling_returns_df, hcol, hdata]

/-- Witness for the amended C7 at the concrete `i64` table. -/
theorem type_mismatch_error_witness :
    calculate_rolling_returns_df rnd0 dfInt "price" 5 =
      Outcome.err ⟨PyErrKind.valueError, typeMismatchMsg (polarsDtypeMismatchCause "i64")⟩ :=
  type_mismatch_error rnd0 dfInt "price" 5 ⟨"price", SeriesData.other "i64" 3⟩ "i64" 3 rfl rfl

/-- With `k = 0` the first loop iteration always aborts: unwrapping the
start price panics if it is missing, otherwise the end-index computation
`0 + 0 - 1` underflows. -/
theorem rollingReturns_k_zero (rnd : ℚ → F64) (vals : List (Option F64)) :
    rollingReturns rnd vals 0 = Except.error
      (match chGet vals 0 with
        | none => unwrapNoneMsg
        | some _ => usizeUnderflowMsg) := by
  unfold rollingReturns
  rw [Nat.sub_zero, List.range_succ_eq_map, rollingLoop]
  cases h : chGet vals 0 with
  | none => simp [windowReturn, h]
  | some v => simp [windowReturn, h]

/-- C8 counterexample: on an empty `Float64` column with `k = 0` the first
iteration panics unwrapping the missing start price, so the end-index
underflow claimed for every existing floating-point column never happens
there. -/
theorem k_zero_empty_counterexample :
    calculate_rolling_returns_df rnd0 ⟨[⟨"price", SeriesData.f64 []⟩]⟩ "price" 0 =
      Outcome.panic unwrapNoneMsg ∧ unwrapNoneMsg ≠ usizeUnderflowMsg :=
  ⟨rfl, by decide⟩

/-- C8 amended: the precondition `k ≥ 1` is not enforced.  For `k = 0` and
any existing `Float64` column the insufficient-data check (`len < 0`) never
rejects, and the call never returns a reported error or a result: when the
first entry is present the end-index computation `0 + 0 - 1` underflows the
unsigned index type and the call panics; when the column is empty or its
first entry is null, the unwrap of the start price panics first. -/
theorem k_zero_panics (rnd : ℚ → F64) (df : DataFrame) (column : String)
    (s : Series) (vals : List (Option F64))
    (hcol : DataFrame.column df column = some s)
    (hdata : s.data = SeriesData.f64 vals) :
    (∀ e, calculate_rolling_returns_df rnd df column 0 ≠ Outcome.err e) ∧
    (∀ out, calculate_rolling_returns_df rnd df column 0 ≠ Outcome.ok out) ∧
    (∀ v, vals.getD 0 none = some v →
      calculate_rolling_returns_df rnd df column 0 = Outcome.panic usizeUnderflowMsg) ∧
    (vals.getD 0 none = none →
      calculate_rolling_returns_df rnd df column 0 = Outcome.panic unwrapNoneMsg) := by
  have hcalc : calculate_rolling_returns_df rnd df column 0 = Outcome.panic
      (match chGet vals 0 with
        | none => unwrapNoneMsg
        | some _ => usizeUnderflowMsg) := by
    simp only [calculate_rolling_returns_df, hcol, hdata]
    rw [if_neg (by omega), rollingReturns_k_zero]
  have hch : chGet vals 0 = vals.getD 0 none := by
    cases vals with
    | nil => rfl
    | cons a rest => rfl
  refine ⟨?_, ?_, ?_, ?_⟩
  · intro e he
    rw [hcalc] at he
    cases he
  · intro out hout
    rw [hcalc] at hout
    cases hout
  · intro v hv
    rw [hcalc, hch, hv]
  · intro hv
    rw [hcalc, hch, hv]

/-- Witness for the amended C8 at the one-row table. -/
theorem k_zero_panics_witness :
    (∀ e, calculate_rolling_returns_df rnd0 dfOne "price" 0 ≠ Outcome.err e) ∧
    (∀ out, calculate_rolling_returns_df rnd0 dfOne "price" 0 ≠ Outcome.ok out) ∧
    (∀ v, [some (F64.finite 100)].getD 0 none = some v →
      calculate_rolling_returns_df rnd0 dfOne "price" 0 = Outcome.panic usizeUnderflowMsg) ∧
    ([some (F64.finite 100)].getD 0 none = none →
      calculate_rolling_returns_df rnd0 dfOne "price" 0 = Outcome.panic unwrapNoneMsg) :=
  k_zero_panics rnd0 dfOne "price" ⟨"price", SeriesData.f64 [some (F64.finite 100)]⟩
    [some (F64.finite 100)] rfl rfl

/-- A list of optionals with no `none` entry is a `map some`. -/
theorem eq_map_some_of_no_none : ∀ l : List (Option F64), (∀ x ∈ l, x ≠ none) →
    ∃ l' : List F64, l = l'.map some
  | [], _ => ⟨[], rfl⟩
  | a :: rest, h => by
    obtain ⟨l', hl'⟩ := eq_map_some_of_no_none rest (fun x hx => h x (List.mem_cons_of_mem a hx))
    cases a with
    | none => exact absurd rfl (h none (List.mem_cons_self none rest))
    | some v => exact ⟨v :: l', by rw [hl']; rfl⟩

/-- C9: on a null-free column with `1 ≤ k ≤ len` both accesses
`prices.get(i)` and `prices.get(i + k - 1)` return a value for every start
index, the unwrap branch is unreachable and the call succeeds; a null entry
at a window endpoint makes the call panic rather than return an error. -/
theorem unwrap_behaviour (rnd : ℚ → F64) (df : DataFrame) (column : String) (k : ℕ)
    (s : Series) (vals : List (Option F64))
    (hcol : DataFrame.column df column = some s)
    (hdata : s.data = SeriesData.f64 vals) :
    ((∀ x ∈ vals, x ≠ none) → 1 ≤ k → k ≤ vals.length →
      (∀ i, i ≤ vals.length - k → chGet vals i ≠ none ∧ chGet vals (i + k - 1) ≠ none) ∧
      (∀ m, calculate_rolling_returns_df rnd df column k ≠ Outcome.panic m) ∧
      ∃ out, calculate_rolling_returns_df rnd df column k = Outcome.ok out) ∧
    (∀ p, 1 ≤ k → p < vals.length → vals.getD p (some F64.nan) = none →
      (p + k ≤ vals.length ∨ k ≤ p + 1) →
      ∃ m, calculate_rolling_returns_df rnd df column k = Outcome.panic m) := by
  constructor
  · intro hno hk1 hk2
    obtain ⟨vals', rfl⟩ := eq_map_some_of_no_none vals hno
    rw [List.length_map] at hk2
    have hok := calc_ok_of_valid rnd df column k s vals' hcol hdata hk1 hk2
    refine ⟨?_, ?_, ⟨_, hok⟩⟩
    · intro i hi
      rw [List.length_map] at hi
      constructor
      · rw [chGet_map_some vals' i (by omega)]
        exact Option.some_ne_none _
      · rw [chGet_map_some vals' (i + k - 1) (by omega)]
        exact Option.some_ne_none _
    · intro m hm
      rw [hok] at hm
      cases hm
  · intro p hk1 hp hnull hcase
    have hklen : k ≤ vals.length := by rcases hcase with h | h <;> omega
    rw [List.getD_eq_getElem?_getD, List.getElem?_eq_getElem hp] at hnull
    simp only [Option.getD_some] at hnull
    have hchp : chGet vals p = none := by
      unfold chGet
      rw [List.get?_eq_getElem?, List.getElem?_eq_getElem hp, hnull]
      rfl
    have key : ∀ i0, i0 < vals.length - k + 1 →
        (∀ v, windowReturn rnd vals k i0 ≠ Except.ok v) →
        ∃ m, calculate_rolling_returns_df rnd df column k = Outcome.panic m := by
      intro i0 hi0 hwin
      simp only [calculate_rolling_returns_df, hcol, hdata]
      rw [if_neg (by omega)]
      cases hr : rollingReturns rnd vals k with
      | error m => exact ⟨m, rfl⟩
      | ok res =>
        unfold rollingReturns at hr
        obtain ⟨v, hv⟩ := rollingLoop_ok_mem rnd vals k _ res hr i0 (List.mem_range.2 hi0)
        exact absurd hv (hwin v)
    by_cases hstart : p + k ≤ vals.length
    · refine key p (by omega) ?_
      intro v hv
      unfold windowReturn at hv
      rw [hchp] at hv
      cases hv
    · have hend : k ≤ p + 1 := by
        rcases hcase with h | h
        · omega
        · exact h
      refine key (p + 1 - k) (by omega) ?_
      intro v hv
      unfold windowReturn at hv
      cases hcg : chGet vals (p + 1 - k) with
      | none => rw [hcg] at hv; cases hv
      | some sp =>
        rw [hcg] at hv
        have hv2 : (if p + 1 - k + k = 0 then Except.error usizeUnderflowMsg
            else match chGet vals (p + 1 - k + k - 1) with
              | none => Except.error unwrapNoneMsg
              | some end_price => Except.ok (fdiv rnd (fsub rnd end_price sp) sp))
            = Except.ok v := hv
        rw [show p + 1 - k + k - 1 = p by omega, hchp,
          if_neg (by omega : ¬ (p + 1 - k + k = 0))] at hv2
        cases hv2

/-- Two-row input whose second entry is null, used by the C9 witness. -/
def dfNull : DataFrame := ⟨[⟨"price", SeriesData.f64 [some (F64.finite 100), none]⟩]⟩

/-- Witness for C9 at the two-row table `[100, null]`. -/
theorem unwrap_behaviour_witness :
    ((∀ x ∈ [some (F64.finite 100), none], x ≠ none) → 1 ≤ 2 →
      2 ≤ [some (F64.finite 100), none].length →
      (∀ i, i ≤ [some (F64.finite 100), none].length - 2 →
        chGet [some (F64.finite 100), none] i ≠ none ∧
        chGet [some (F64.finite 100), none] (i + 2 - 1) ≠ none) ∧
      (∀ m, calculate_rolling_returns_df rnd0 dfNull "price" 2 ≠ Outcome.panic m) ∧
      ∃ out, calculate_rolling_returns_df rnd0 dfNull "price" 2 = Outcome.ok out) ∧
    (∀ p, 1 ≤ 2 → p < [some (F64.finite 100), none].length →
      [some (F64.finite 100), none].getD p (some F64.nan) = none →
      (p + 2 ≤ [some (F64.finite 100), none].length ∨ 2 ≤ p + 1) →
      ∃ m, calculate_rolling_returns_df rnd0 dfNull "price" 2 = Outcome.panic m) :=
  unwrap_behaviour rnd0 dfNull "price" 2 ⟨"price", SeriesData.f64 [some (F64.finite 100), none]⟩
    [some (F64.finite 100), none] rfl rfl

end RollingWins
